import Mathlib

/-!
Verification of the YouTube-Analysis service's analysis pipeline
(`src/analysis/analysis.service.ts`), shallowly embedded in Lean 4.

Probabilities are modelled as exact rationals. The claims proved below
depend only on order comparisons with wide margins (0.2/0.8 versus the
0.3/0.5/0.7 thresholds) and on the exactly representable values 0 and
0.5, on which IEEE doubles and ℚ agree, so the rational model is
observationally faithful for every property stated here.
External collaborators (puppeteer, imgbb, ffmpeg/ytdl, ElevenLabs, the
AI-detection endpoint) are modelled as outcome oracles supplied to the
embedded functions; the embedded code is the service's own control flow
over those outcomes.
-/

namespace YTAnalysis

/-- Job status, `status: 'processing' | 'completed' | 'error'` in
`AnalysisResultDto`. -/
inductive Status where
  | processing
  | completed
  | error
deriving DecidableEq, Repr

/-- `TranscriptSegment` from `dto/analysis-result.dto.ts`. -/
structure TranscriptSegment where
  text : String
  start_time : ℚ
  end_time : ℚ
  speaker : Option String
  ai_probability : ℚ
deriving DecidableEq, Repr

/-- `SentenceStats` nested record of `OverallAnalysis`. -/
structure SentenceStats where
  total_sentences : ℕ
  ai_sentences : ℕ
  human_sentences : ℕ
  neutral_sentences : ℕ
  average_sentence_ai_probability : ℚ
deriving DecidableEq, Repr

/-- `PerplexityMetrics` nested record of `OverallAnalysis`. -/
structure PerplexityMetrics where
  overall_perplexity : ℚ
  average_perplexity : ℚ
  burstiness : ℚ
deriving DecidableEq, Repr

/-- The `OverallAnalysis` interface of `analysis.service.ts`
(`confidence_level` is kept as a string: the source only ever produces
"high" or "medium"). -/
structure OverallAnalysis where
  overall_ai_probability : ℚ
  overall_prediction : String
  confidence_level : String
  decision_rationale : String
  perplexity_metrics : PerplexityMetrics
  sentence_stats : SentenceStats
deriving DecidableEq, Repr

/-- `calculateOverallAnalysis` of `analysis.service.ts` (lines 192-213):
mean via `reduce(...) / (segments.length || 1)`, ai-leaning at `>= 0.7`,
human-leaning at `<= 0.3`, confidence "high" iff one of the counts
exceeds 80% of the total. -/
def calculateOverallAnalysis (segments : List TranscriptSegment) : OverallAnalysis :=
  let sum := segments.foldl (fun acc s => acc + s.ai_probability) 0
  let denom : ℚ := if segments.length = 0 then 1 else (segments.length : ℚ)
  let avgProb := sum / denom
  let aiCount := (segments.filter (fun s => (7 : ℚ)/10 ≤ s.ai_probability)).length
  let humanCount := (segments.filter (fun s => s.ai_probability ≤ (3 : ℚ)/10)).length
  { overall_ai_probability := avgProb
    overall_prediction :=
      if (7 : ℚ)/10 ≤ avgProb then "AI-Generated Content"
      else if (1 : ℚ)/2 ≤ avgProb then "Mixed Content"
      else "Human-Generated Content"
    confidence_level :=
      if (segments.length : ℚ) * (8/10 : ℚ) < (aiCount : ℚ) ∨
         (segments.length : ℚ) * (8/10 : ℚ) < (humanCount : ℚ)
      then "high" else "medium"
    decision_rationale :=
      toString aiCount ++ " AI-like, " ++ toString humanCount ++ " human-like segments"
    perplexity_metrics := { overall_perplexity := 0, average_perplexity := 0, burstiness := 0 }
    sentence_stats :=
      { total_sentences := segments.length
        ai_sentences := aiCount
        human_sentences := humanCount
        neutral_sentences := segments.length - aiCount - humanCount
        average_sentence_ai_probability := avgProb } }

/-! ### The content-classification cache (`getAIProbability` / `hashString`) -/

/-- JS `ToInt32`: reduce an integer to the signed 32-bit range, as performed
by `<< 5` and by `& 0xffffffff` in `hashString`. -/
def toInt32 (x : ℤ) : ℤ :=
  let r := x % 4294967296
  if r < 2147483648 then r else r - 4294967296

/-- One step of `hashString`'s loop:
`hash = ((hash << 5) - hash + text.charCodeAt(i)) & 0xffffffff`. -/
def hashStep (h : ℤ) (c : ℕ) : ℤ :=
  toInt32 (toInt32 (h * 32) - h + (c : ℤ))

/-- Base-36 digit character, as produced by JS `Number.toString(36)`
(digits `0-9` then lowercase `a-z`). -/
def digit36 (n : ℕ) : Char :=
  if n < 10 then Char.ofNat (48 + n) else Char.ofNat (87 + n)

/-- Fuel-driven base-36 digit accumulator (the fuel `n + 1` always
suffices because the argument shrinks by a factor of 36 each step). -/
def base36Aux : ℕ → ℕ → List Char → List Char
  | 0, _, acc => acc
  | _ + 1, 0, acc => acc
  | fuel + 1, n + 1, acc => base36Aux fuel ((n + 1) / 36) (digit36 ((n + 1) % 36) :: acc)

/-- JS `Number.toString(36)` on an integer value (sign, then base-36
magnitude). -/
def intToBase36 (x : ℤ) : String :=
  if x = 0 then "0"
  else (if x < 0 then "-" else "") ++ String.mk (base36Aux (x.natAbs + 1) x.natAbs [])

/-- `hashString` of `analysis.service.ts` (lines 236-242). -/
def hashString (text : String) : String :=
  intToBase36 (text.data.foldl (fun h c => hashStep h c.toNat) 0)

/-- The in-memory classification cache `Map<string, number>`, as an
association list from hash strings to probabilities (most recent
binding first). -/
abbrev Cache := List (String × ℚ)

/-- `Map.has`/`Map.get` combined: the probability stored under a key,
if present. -/
def cacheLookup : Cache → String → Option ℚ
  | [], _ => none
  | (k, v) :: rest, key => if k = key then some v else cacheLookup rest key

/-- Outcome oracle for one `axios.post` call to the AI-detection
endpoint: `success label` is a response whose `data.output.label` equals
`label`; `failure` is any rejection, timeout, or malformed response
(every throw inside the `try` lands in the same `catch`). -/
inductive ClassifyOutcome where
  | success (label : ℕ)
  | failure
deriving DecidableEq, Repr

/-- Result of one `getAIProbability` call: the returned probability, the
cache state afterwards, and whether the external endpoint was invoked
(the `axios.post` call was issued, successfully or not). -/
structure ClassifyResult where
  prob : ℚ
  cache : Cache
  invoked : Bool

/-- `getAIProbability` of `analysis.service.ts` (lines 215-234): texts
shorter than 50 return the neutral 0.5 without touching cache or
endpoint; a cache hit returns the stored value; otherwise the endpoint
is invoked and, on success, `label == 0` maps to 0.8 (else 0.2) and the
value is stored; on failure 0.5 is returned and nothing is stored. -/
def getAIProbability (cache : Cache) (text : String) (outcome : ClassifyOutcome) :
    ClassifyResult :=
  if text.length < 50 then
    { prob := 1/2, cache := cache, invoked := false }
  else
    let h := hashString text
    match cacheLookup cache h with
    | some p => { prob := p, cache := cache, invoked := false }
    | none =>
      match outcome with
      | ClassifyOutcome.success label =>
          let p : ℚ := if label = 0 then 8/10 else 2/10
          { prob := p, cache := (h, p) :: cache, invoked := true }
      | ClassifyOutcome.failure =>
          { prob := 1/2, cache := cache, invoked := true }

/-! ### External task adapters -/

/-- The fallback URL returned by `uploadToImgBB`'s catch block. -/
def uploadFailedPlaceholder : String :=
  "https://via.placeholder.com/1280x720/ff4444/ffffff?text=Upload+Failed"

/-- The fallback URL returned by `captureScreenshot`'s catch block. -/
def screenshotFailedPlaceholder : String :=
  "https://via.placeholder.com/1280x720/ff4444/ffffff?text=Screenshot+Failed"

/-- Outcome oracle for the imgbb upload: `ok url` is an axios response
with `data.success` truthy carrying `data.data.url`; `fail` is an axios
rejection, a timeout, or a response with `data.success` falsy (the
source throws on the latter and catches its own throw). -/
inductive UploadOutcome where
  | ok (url : String)
  | fail (msg : String)
deriving DecidableEq, Repr

/-- Outcome oracle for the puppeteer part of `captureScreenshot`:
`captureOk` means launch/goto/screenshot succeeded and the upload was
attempted with the given outcome; `captureFail` is any throw before the
upload (launch, navigation, timeout, screenshot). -/
inductive ScreenshotOutcome where
  | captureOk (upload : UploadOutcome)
  | captureFail (msg : String)
deriving DecidableEq, Repr

/-- `uploadToImgBB` of `analysis.service.ts` (lines 129-152): returns the
hosted URL on success and the upload placeholder on any failure. It
never rejects — the whole body is inside `try`/`catch`. -/
def uploadToImgBB : UploadOutcome → String
  | UploadOutcome.ok url => url
  | UploadOutcome.fail _ => uploadFailedPlaceholder

/-- `captureScreenshot` of `analysis.service.ts` (lines 106-127): returns
the uploaded URL or a placeholder. It never rejects — any capture
failure is caught and mapped to the screenshot placeholder. -/
def captureScreenshot : ScreenshotOutcome → String
  | ScreenshotOutcome.captureOk u => uploadToImgBB u
  | ScreenshotOutcome.captureFail _ => screenshotFailedPlaceholder

/-- Outcome oracle for the ffmpeg/ytdl pipeline in `extractAudio`:
`ok` fires the `end` event, `fail msg` fires `error` with that
message. -/
inductive AudioOutcome where
  | ok
  | fail (msg : String)
deriving DecidableEq, Repr

/-- The output path `join(this.uploadsDir, id + ".wav")` (the
`process.cwd()` prefix of `uploadsDir` is abstracted away). -/
def audioOutputPath (id : String) : String := "temp/" ++ id ++ ".wav"

/-- `extractAudio` of `analysis.service.ts` (lines 154-166): resolves
with the deterministic output path or rejects with the ffmpeg error. -/
def extractAudio (id : String) : AudioOutcome → Except String String
  | AudioOutcome.ok => Except.ok (audioOutputPath id)
  | AudioOutcome.fail msg => Except.error msg

/-- One raw unit of the ElevenLabs response: an element of
`transcript.words` (or `transcript.segments`), with every field
optional, as consumed by `analyzeTranscript`'s fallback chains. -/
structure RawUnit where
  word : Option String
  text : Option String
  start_time : Option ℚ
  start : Option ℚ
  end_time : Option ℚ
  end_ : Option ℚ
  speaker : Option String
deriving DecidableEq, Repr

/-- The ElevenLabs transcript object: `words` and `segments` may each be
absent (JS `undefined`) or present (possibly as an empty array, which is
truthy in JS). -/
structure Transcript where
  words : Option (List RawUnit)
  segments : Option (List RawUnit)
deriving DecidableEq, Repr

/-- Outcome oracle for `transcribeAudio` (lines 168-174): the ElevenLabs
call resolves with a transcript or rejects. -/
inductive TranscribeOutcome where
  | ok (t : Transcript)
  | fail (msg : String)
deriving DecidableEq, Repr

/-- `transcribeAudio`, abstracted over its outcome oracle. -/
def transcribeAudio : TranscribeOutcome → Except String Transcript
  | TranscribeOutcome.ok t => Except.ok t
  | TranscribeOutcome.fail msg => Except.error msg

/-! ### `analyzeTranscript` -/

/-- JS `a || b` on possibly-absent strings: `undefined` and `""` are both
falsy. -/
def strOr (a : Option String) (b : String) : String :=
  match a with
  | some s => if s = "" then b else s
  | none => b

/-- JS `a || b` on possibly-absent numbers: `undefined` and `0` are both
falsy. -/
def numOr (a : Option ℚ) (b : ℚ) : ℚ :=
  match a with
  | some x => if x = 0 then b else x
  | none => b

/-- `w.word || w.text || ''`. -/
def unitText (w : RawUnit) : String := strOr w.word (strOr w.text "")

/-- `w.start_time || w.start || 0`. -/
def unitStart (w : RawUnit) : ℚ := numOr w.start_time (numOr w.start 0)

/-- `w.end_time || w.end || 0`. -/
def unitEnd (w : RawUnit) : ℚ := numOr w.end_time (numOr w.end_ 0)

/-- `w.speaker || null` (an empty-string speaker is falsy and collapses
to `null`). -/
def unitSpeaker (w : RawUnit) : Option String :=
  match w.speaker with
  | some s => if s = "" then none else some s
  | none => none

/-- `transcript.words || transcript.segments || []`: a present-but-empty
`words` array is truthy and is used as is. -/
def transcriptUnits (t : Transcript) : List RawUnit :=
  match t.words with
  | some ws => ws
  | none =>
    match t.segments with
    | some ss => ss
    | none => []

/-- `words.map(w => w.word || w.text || '').join(' ')`. -/
def joinText (units : List RawUnit) : String :=
  String.intercalate " " (units.map unitText)

/-- Result of `analyzeTranscript`: the produced segments, the cache
afterwards, and the list of text bodies passed to the classification
step (`getAIProbability`), in call order. -/
structure AnalyzeResult where
  segments : List TranscriptSegment
  cache : Cache
  calls : List String

/-- `analyzeTranscript` of `analysis.service.ts` (lines 176-190): empty
unit list short-circuits to `[]`; otherwise the units' texts are joined,
classified once, and the single probability is copied onto every
segment. -/
def analyzeTranscript (cache : Cache) (t : Transcript) (outcome : ClassifyOutcome) :
    AnalyzeResult :=
  let units := transcriptUnits t
  if units.length = 0 then
    { segments := [], cache := cache, calls := [] }
  else
    let text := joinText units
    let r := getAIProbability cache text outcome
    { segments := units.map (fun w =>
        { text := unitText w
          start_time := unitStart w
          end_time := unitEnd w
          speaker := unitSpeaker w
          ai_probability := r.prob })
      cache := r.cache
      calls := [text] }

/-! ### Job store and orchestrator (`analyzeVideo` / `processVideo`) -/

/-- One `AnalysisResultDto` record of the in-memory `results` map
(`createdAt` is an opaque immutable timestamp, never read by the
pipeline, and is omitted). -/
structure JobState where
  id : String
  videoUrl : String
  screenshotPath : String
  transcript : List TranscriptSegment
  overallAnalysis : Option OverallAnalysis
  status : Status
  error : Option String
deriving DecidableEq, Repr

/-- The record inserted by `analyzeVideo` (lines 44-52). -/
def initialJob (id url : String) : JobState :=
  { id := id
    videoUrl := url
    screenshotPath := ""
    transcript := []
    overallAnalysis := none
    status := Status.processing
    error := none }

/-- Outcome oracles for all four external collaborators of one
`processVideo` run. -/
structure Env where
  shot : ScreenshotOutcome
  audio : AudioOutcome
  trans : TranscribeOutcome
  classify : ClassifyOutcome
deriving DecidableEq, Repr

/-- Trace of one `processVideo` run (lines 81-104): `states` lists the
job record's observable snapshots in order, starting from the record at
entry. A snapshot is taken at every suspension point (`await`) and at
return; assignments between two suspension points are atomic because the
JS event loop runs each synchronous block to completion, so no reader
(`getResult` only reads between `setTimeout` ticks) can observe a state
strictly inside a block. `final` is the last snapshot, `unlinkCalled`
records whether `fs.unlink(audioPath)` was invoked, and `classifyCalls`
lists the text bodies passed to `getAIProbability`. -/
structure RunResult where
  states : List JobState
  final : JobState
  cache : Cache
  unlinkCalled : Bool
  classifyCalls : List String

/-- `processVideo` of `analysis.service.ts` (lines 81-104). Control flow
of the source: `Promise.all` of `captureScreenshot` (which never
rejects) and `extractAudio`; on audio rejection the `catch` block writes
`status = 'error'` and `error = message` with no other mutation; on
success `screenshotPath` is written, then `transcribeAudio` is awaited
(its rejection reaches the same `catch`, after `screenshotPath` was
written); then `analyzeTranscript` runs, the transcript, overall
analysis and `completed` status are written, and `fs.unlink(audioPath)`
is invoked. The `unlink` call is the last statement of the `try` block,
so it is not reached from the `catch` paths. -/
def processVideo (env : Env) (cache : Cache) (st : JobState) : RunResult :=
  match extractAudio st.id env.audio with
  | Except.error msg =>
      let fin := { st with status := Status.error, error := some msg }
      { states := [st, fin], final := fin, cache := cache,
        unlinkCalled := false, classifyCalls := [] }
  | Except.ok _audioPath =>
      let st1 := { st with screenshotPath := captureScreenshot env.shot }
      match transcribeAudio env.trans with
      | Except.error msg =>
          let fin := { st1 with status := Status.error, error := some msg }
          { states := [st, st1, fin], final := fin, cache := cache,
            unlinkCalled := false, classifyCalls := [] }
      | Except.ok t =>
          let a := analyzeTranscript cache t env.classify
          let fin := { st1 with
            transcript := a.segments
            overallAnalysis := some (calculateOverallAnalysis a.segments)
            status := Status.completed }
          { states := [st, st1, fin], final := fin, cache := a.cache,
            unlinkCalled := true, classifyCalls := a.calls }

/-! ### Timing model of the acquisition barrier (`Promise.all`) -/

/-- A task with the (abstract, discrete) time at which it settles and
its outcome. -/
structure TimedTask (α : Type) where
  settleTime : ℕ
  outcome : Except String α

/-- ECMAScript `Promise.all` on two tasks: fulfills once both have
fulfilled (so at the later of the two settle times); rejects as soon as
the first rejection settles, without waiting for the other task. The
returned time is the time at which the combined promise settles and the
orchestrator resumes. -/
def promiseAll2 {α β : Type} (t1 : TimedTask α) (t2 : TimedTask β) :
    ℕ × Except String (α × β) :=
  match t1.outcome, t2.outcome with
  | Except.ok a, Except.ok b => (max t1.settleTime t2.settleTime, Except.ok (a, b))
  | Except.ok _, Except.error e => (t2.settleTime, Except.error e)
  | Except.error e, Except.ok _ => (t1.settleTime, Except.error e)
  | Except.error e1, Except.error e2 =>
      if t1.settleTime ≤ t2.settleTime then (t1.settleTime, Except.error e1)
      else (t2.settleTime, Except.error e2)

/-- The acquisition step of `processVideo` (lines 86-89) under the timing
model: `captureScreenshot` always fulfills (with its placeholder on
internal failure), `extractAudio` fulfills or rejects; the pair is
joined by `Promise.all`. The first component is the time at which the
orchestrator proceeds (to `screenshotPath = ...` or to the `catch`
block). -/
def acquisitionStep (shotTime audioTime : ℕ) (shot : ScreenshotOutcome)
    (audio : AudioOutcome) (id : String) : ℕ × Except String (String × String) :=
  promiseAll2 ⟨shotTime, Except.ok (captureScreenshot shot)⟩
    ⟨audioTime, extractAudio id audio⟩

/-! ### Predicates and concrete inputs used by the claims -/

/-- The spec's completed-job invariant: exactly one of
"`segments` non-empty and `summary` present" and "`status ≠ completed`"
holds. -/
def completedSummaryInvariant (f : JobState) : Prop :=
  ((f.transcript ≠ [] ∧ f.overallAnalysis.isSome = true) ∨ f.status ≠ Status.completed) ∧
  ¬ ((f.transcript ≠ [] ∧ f.overallAnalysis.isSome = true) ∧ f.status ≠ Status.completed)

/-- Thumbnail Capture failed: either the puppeteer capture threw or the
imgbb upload step failed (response not successful, rejection, or
timeout). -/
def screenshotFailed : ScreenshotOutcome → Prop
  | ScreenshotOutcome.captureOk (UploadOutcome.ok _) => False
  | ScreenshotOutcome.captureOk (UploadOutcome.fail _) => True
  | ScreenshotOutcome.captureFail _ => True

/-- A cache state in which every stored probability is one the source
can store: `getAIProbability` only ever inserts 0.8 or 0.2. Holds of the
initial empty cache. -/
def goodCache (c : Cache) : Prop :=
  ∀ kv ∈ c, kv.2 = (8 : ℚ)/10 ∨ kv.2 = (2 : ℚ)/10

/-- Two sequential `getAIProbability` calls with the same text, threading
the cache: returns the two probabilities and the number of external
endpoint invocations. -/
def callTwice (cache : Cache) (text : String) (o1 o2 : ClassifyOutcome) :
    ℚ × ℚ × ℕ :=
  let r1 := getAIProbability cache text o1
  let r2 := getAIProbability r1.cache text o2
  (r1.prob, r2.prob,
    (if r1.invoked then 1 else 0) + (if r2.invoked then 1 else 0))

/-- A 50-character text: long enough for `getAIProbability` to consult
cache and endpoint. -/
def text50 : String := String.mk (List.replicate 50 'a')

/-- A run in which acquisition succeeds and Transcription returns a
present-but-empty word list. -/
def envEmptyTranscription : Env :=
  { shot := ScreenshotOutcome.captureOk (UploadOutcome.ok "https://i.ibb.co/x.png")
    audio := AudioOutcome.ok
    trans := TranscribeOutcome.ok { words := some [], segments := none }
    classify := ClassifyOutcome.failure }

/-- A run in which acquisition succeeds and Transcription rejects. -/
def envTranscriptionFails : Env :=
  { shot := ScreenshotOutcome.captureOk (UploadOutcome.ok "https://i.ibb.co/x.png")
    audio := AudioOutcome.ok
    trans := TranscribeOutcome.fail "transcription unavailable"
    classify := ClassifyOutcome.failure }

/-- Freeze-after-terminal property of a snapshot trace: whenever a
snapshot is terminal (not `processing`), every later snapshot is
identical to it. -/
def FrozenAfterTerminal : List JobState → Prop
  | [] => True
  | s :: rest => (s.status ≠ Status.processing → ∀ x ∈ rest, x = s) ∧ FrozenAfterTerminal rest

/-- A run in which Audio Extraction rejects. -/
def envAudioFails : Env :=
  { shot := ScreenshotOutcome.captureFail "no browser"
    audio := AudioOutcome.fail "ffmpeg exited with code 1"
    trans := TranscribeOutcome.fail "unreached"
    classify := ClassifyOutcome.failure }

/-- A thumbnail-failure, otherwise-successful run. -/
def envThumbnailFails : Env :=
  { shot := ScreenshotOutcome.captureFail "net::ERR_TIMED_OUT"
    audio := AudioOutcome.ok
    trans := TranscribeOutcome.ok { words := some [], segments := none }
    classify := ClassifyOutcome.failure }

/-- A one-word ElevenLabs transcript used as a witness input. -/
def oneWordTranscript : Transcript :=
  { words := some [{ word := some "hello", text := none, start_time := none,
                     start := none, end_time := none, end_ := none, speaker := none }]
    segments := none }

/-- A successful one-word run used as a witness input. -/
def envOneWord : Env :=
  { shot := ScreenshotOutcome.captureOk (UploadOutcome.ok "https://i.ibb.co/x.png")
    audio := AudioOutcome.ok
    trans := TranscribeOutcome.ok oneWordTranscript
    classify := ClassifyOutcome.success 0 }

/-! ### Theorems -/

/-- C2 (counterexample): on the empty segment list the source aggregator
returns mean 0, not the claimed 0.5. -/
theorem empty_aggregator_claim_false :
    ¬ ((calculateOverallAnalysis []).overall_ai_probability = 1/2 ∧
       (calculateOverallAnalysis []).confidence_level = "medium") := by
  intro h
  have h1 := h.1
  simp [calculateOverallAnalysis] at h1

/-- C2 (amended): the aggregator on the empty segment list returns
`overall_ai_probability = 0` (the `length || 1` guard divides 0 by 1)
and `confidence_level = "medium"`. -/
theorem empty_aggregator_zero_medium :
    (calculateOverallAnalysis []).overall_ai_probability = 0 ∧
    (calculateOverallAnalysis []).confidence_level = "medium" := by
  constructor <;> simp [calculateOverallAnalysis]

/-- C5: if Audio Extraction fails with a non-empty message, the job ends
in terminal `error`, the message is preserved verbatim as the error
detail (hence non-empty), and `transcript` stays empty. -/
theorem audio_failure_terminal_error (env : Env) (cache : Cache) (id url msg : String)
    (haudio : env.audio = AudioOutcome.fail msg) (hmsg : msg ≠ "") :
    (processVideo env cache (initialJob id url)).final.status = Status.error ∧
    (processVideo env cache (initialJob id url)).final.error = some msg ∧
    msg ≠ "" ∧
    (processVideo env cache (initialJob id url)).final.transcript = [] := by
  simp [processVideo, haudio, extractAudio, initialJob, hmsg]

/-- C5 witness. -/
theorem audio_failure_terminal_error_witness :
    (processVideo envAudioFails [] (initialJob "j" "u")).final.status = Status.error ∧
    (processVideo envAudioFails [] (initialJob "j" "u")).final.error =
      some "ffmpeg exited with code 1" ∧
    "ffmpeg exited with code 1" ≠ "" ∧
    (processVideo envAudioFails [] (initialJob "j" "u")).final.transcript = [] :=
  audio_failure_terminal_error envAudioFails [] "j" "u" "ffmpeg exited with code 1"
    rfl (by decide)

/-- C6: if Thumbnail Capture fails (capture or upload step) while audio
and transcription succeed, the job still completes and its thumbnail
reference is one of the two placeholder sentinels. -/
theorem thumbnail_failure_still_completes (env : Env) (cache : Cache) (id url : String)
    (t : Transcript) (hshot : screenshotFailed env.shot)
    (haudio : env.audio = AudioOutcome.ok)
    (htrans : env.trans = TranscribeOutcome.ok t) :
    (processVideo env cache (initialJob id url)).final.status = Status.completed ∧
    ((processVideo env cache (initialJob id url)).final.screenshotPath =
        screenshotFailedPlaceholder ∨
      (processVideo env cache (initialJob id url)).final.screenshotPath =
        uploadFailedPlaceholder) := by
  obtain ⟨shot, audio, trans, classify⟩ := env
  simp only at haudio htrans
  subst haudio htrans
  constructor
  · simp [processVideo, extractAudio, transcribeAudio]
  · cases shot with
    | captureFail m =>
      simp [processVideo, extractAudio, transcribeAudio, captureScreenshot]
    | captureOk u =>
      cases u with
      | ok url' => exact absurd hshot (by simp [screenshotFailed])
      | fail m =>
        simp [processVideo, extractAudio, transcribeAudio, captureScreenshot, uploadToImgBB]

/-- C6 witness. -/
theorem thumbnail_failure_still_completes_witness :
    (processVideo envThumbnailFails [] (initialJob "j" "u")).final.status = Status.completed ∧
    ((processVideo envThumbnailFails [] (initialJob "j" "u")).final.screenshotPath =
        screenshotFailedPlaceholder ∨
      (processVideo envThumbnailFails [] (initialJob "j" "u")).final.screenshotPath =
        uploadFailedPlaceholder) :=
  thumbnail_failure_still_completes envThumbnailFails [] "j" "u"
    { words := some [], segments := none } (by simp [envThumbnailFails, screenshotFailed])
    rfl rfl

/-- C1 (counterexample): a run whose Transcription succeeds with an
empty word list produces a `completed` job with empty `segments` and a
present summary, so neither side of the claimed exactly-one-of
invariant holds. -/
theorem completed_invariant_claim_false :
    ¬ completedSummaryInvariant
      (processVideo envEmptyTranscription [] (initialJob "job-1" "url")).final := by
  simp [completedSummaryInvariant, processVideo, envEmptyTranscription, extractAudio,
    transcribeAudio, analyzeTranscript, transcriptUnits, initialJob]

/-- C1 (amended): the summary is present exactly when the job is
`completed`, and a completed job's segment list is non-empty whenever
Transcription returned a non-empty unit list (it is empty when
Transcription returns no units). -/
theorem summary_iff_completed (env : Env) (cache : Cache) (id url : String) :
    ((processVideo env cache (initialJob id url)).final.overallAnalysis.isSome = true ↔
      (processVideo env cache (initialJob id url)).final.status = Status.completed) ∧
    ((processVideo env cache (initialJob id url)).final.status = Status.completed →
      ∀ t, env.trans = TranscribeOutcome.ok t → transcriptUnits t ≠ [] →
        (processVideo env cache (initialJob id url)).final.transcript ≠ []) := by
  obtain ⟨shot, audio, trans, classify⟩ := env
  cases audio with
  | fail m =>
    simp [processVideo, extractAudio, initialJob]
  | ok =>
    cases trans with
    | fail m =>
      simp [processVideo, extractAudio, transcribeAudio, initialJob]
    | ok t0 =>
      constructor
      · simp [processVideo, extractAudio, transcribeAudio]
      · intro _ t ht hne
        simp only [TranscribeOutcome.ok.injEq] at ht
        subst ht
        simp [processVideo, extractAudio, transcribeAudio, analyzeTranscript, hne,
          List.map_eq_nil_iff]

/-- C1 witness. -/
theorem summary_iff_completed_witness :
    (((processVideo envEmptyTranscription [] (initialJob "j" "u")).final.overallAnalysis.isSome = true ↔
      (processVideo envEmptyTranscription [] (initialJob "j" "u")).final.status = Status.completed) ∧
    ((processVideo envEmptyTranscription [] (initialJob "j" "u")).final.status = Status.completed →
      ∀ t, envEmptyTranscription.trans = TranscribeOutcome.ok t → transcriptUnits t ≠ [] →
        (processVideo envEmptyTranscription [] (initialJob "j" "u")).final.transcript ≠ [])) :=
  summary_iff_completed envEmptyTranscription [] "j" "u"

/-- C3: with audio extracted and Transcription rejecting, the run ends in
`error` without ever invoking the temp-file deletion, while the success
path of the same run does invoke it — the `fs.unlink` call sits at the
end of the `try` block and is unreachable from `catch`. -/
theorem unlink_skipped_on_transcription_failure :
    (processVideo envTranscriptionFails [] (initialJob "job-1" "url")).final.status =
      Status.error ∧
    (processVideo envTranscriptionFails [] (initialJob "job-1" "url")).unlinkCalled = false ∧
    (processVideo envEmptyTranscription [] (initialJob "job-1" "url")).unlinkCalled = true := by
  refine ⟨?_, ?_, ?_⟩ <;>
    simp [processVideo, envTranscriptionFails, envEmptyTranscription, extractAudio,
      transcribeAudio, analyzeTranscript, transcriptUnits]

/-- C7: every run starts from the freshly created `processing` record and
its snapshot trace never mutates a record after it becomes terminal:
the job transitions at most once, to `completed` or `error`, and stays
frozen afterwards. -/
theorem status_monotonic_frozen (env : Env) (cache : Cache) (id url : String) :
    (processVideo env cache (initialJob id url)).states.head? = some (initialJob id url) ∧
    (initialJob id url).status = Status.processing ∧
    FrozenAfterTerminal (processVideo env cache (initialJob id url)).states := by
  obtain ⟨shot, audio, trans, classify⟩ := env
  cases audio <;> cases trans <;>
    simp [processVideo, extractAudio, transcribeAudio, FrozenAfterTerminal, initialJob]

/-- C9 (counterexample): with Thumbnail Capture settling at time 10 and
Audio Extraction rejecting at time 1, the acquisition step hands the
rejection to the orchestrator at time 1 — before the thumbnail task has
settled — because `Promise.all` rejects eagerly. -/
theorem acquisition_barrier_claim_false :
    (acquisitionStep 10 1 (ScreenshotOutcome.captureOk (UploadOutcome.ok "u"))
        (AudioOutcome.fail "boom") "j").2 = Except.error "boom" ∧
    (acquisitionStep 10 1 (ScreenshotOutcome.captureOk (UploadOutcome.ok "u"))
        (AudioOutcome.fail "boom") "j").1 < 10 := by
  constructor <;>
    simp [acquisitionStep, promiseAll2, extractAudio, captureScreenshot, uploadToImgBB]

/-- C9 (amended): when Audio Extraction fulfills, the orchestrator
resumes only once both acquisition tasks have settled (at the later of
the two settle times); when Audio Extraction rejects, the orchestrator
resumes at the audio rejection time, without waiting for the (always
fulfilling) thumbnail task. -/
theorem acquisition_barrier_on_success (ts ta : ℕ) (shot : ScreenshotOutcome) (id : String) :
    (acquisitionStep ts ta shot AudioOutcome.ok id).1 = max ts ta ∧
    ∀ msg, (acquisitionStep ts ta shot (AudioOutcome.fail msg) id).1 = ta := by
  constructor <;> simp [acquisitionStep, promiseAll2, extractAudio]

/-- C4 (amended): when the first call's external classification succeeds
(and in particular whenever the text is short or already cached), a
second sequential call with the identical text returns the identical
probability and the endpoint is invoked at most once in total. -/
theorem cache_hit_after_success (cache : Cache) (text : String) (label : ℕ)
    (o2 : ClassifyOutcome) :
    (callTwice cache text (ClassifyOutcome.success label) o2).1 =
      (callTwice cache text (ClassifyOutcome.success label) o2).2.1 ∧
    (callTwice cache text (ClassifyOutcome.success label) o2).2.2 ≤ 1 := by
  unfold callTwice getAIProbability
  by_cases hlen : text.length < 50
  · simp [hlen]
  · simp only [hlen, if_false]
    cases hc : cacheLookup cache (hashString text) with
    | some p => simp [hc]
    | none => simp [hc, cacheLookup]

/-- C4 (counterexample): on a 50-character uncached text whose first
classification call fails and second succeeds with label 0, the two
sequential calls return 0.5 then 0.8 and invoke the endpoint twice —
the failure result is not cached. -/
theorem cache_claim_false :
    ¬ ((callTwice [] text50 ClassifyOutcome.failure (ClassifyOutcome.success 0)).1 =
        (callTwice [] text50 ClassifyOutcome.failure (ClassifyOutcome.success 0)).2.1 ∧
       (callTwice [] text50 ClassifyOutcome.failure (ClassifyOutcome.success 0)).2.2 ≤ 1) := by
  unfold callTwice getAIProbability
  simp [cacheLookup, (by decide : ¬ (text50.length < 50))]

/-- C8: in a run that completes with a non-empty segment list, the
classification step is invoked exactly once — with the joined text body
— and its single probability is copied onto every produced segment. -/
theorem single_classification_uniform (env : Env) (cache : Cache) (id url : String)
    (t : Transcript) (haudio : env.audio = AudioOutcome.ok)
    (htrans : env.trans = TranscribeOutcome.ok t) (hne : transcriptUnits t ≠ []) :
    (processVideo env cache (initialJob id url)).final.status = Status.completed ∧
    (processVideo env cache (initialJob id url)).final.transcript ≠ [] ∧
    (processVideo env cache (initialJob id url)).classifyCalls =
      [joinText (transcriptUnits t)] ∧
    ∀ s ∈ (processVideo env cache (initialJob id url)).final.transcript,
      s.ai_probability =
        (getAIProbability cache (joinText (transcriptUnits t)) env.classify).prob := by
  obtain ⟨shot, audio, trans, classify⟩ := env
  simp only at haudio htrans
  subst haudio htrans
  refine ⟨?_, ?_, ?_, ?_⟩ <;>
    simp [processVideo, extractAudio, transcribeAudio, analyzeTranscript, hne,
      List.map_eq_nil_iff, List.mem_map]

/-- C8 witness. -/
theorem single_classification_uniform_witness :
    (processVideo envOneWord [] (initialJob "j" "u")).final.status = Status.completed ∧
    (processVideo envOneWord [] (initialJob "j" "u")).final.transcript ≠ [] ∧
    (processVideo envOneWord [] (initialJob "j" "u")).classifyCalls =
      [joinText (transcriptUnits oneWordTranscript)] ∧
    ∀ s ∈ (processVideo envOneWord [] (initialJob "j" "u")).final.transcript,
      s.ai_probability =
        (getAIProbability [] (joinText (transcriptUnits oneWordTranscript))
          envOneWord.classify).prob :=
  single_classification_uniform envOneWord [] "j" "u" oneWordTranscript rfl rfl
    (by simp [oneWordTranscript, transcriptUnits])

/-- Values stored by `getAIProbability` are found good again by lookup. -/
theorem cacheLookup_good {c : Cache} (hg : goodCache c) {k : String} {p : ℚ}
    (hl : cacheLookup c k = some p) : p = (8 : ℚ)/10 ∨ p = (2 : ℚ)/10 := by
  induction c with
  | nil => simp [cacheLookup] at hl
  | cons kv rest ih =>
    obtain ⟨k0, v0⟩ := kv
    rw [cacheLookup] at hl
    by_cases hk : k0 = k
    · rw [if_pos hk] at hl
      injection hl with h
      subst h
      exact hg (k0, v0) (List.mem_cons_self _ _)
    · rw [if_neg hk] at hl
      exact ih (fun kv hkv => hg kv (List.mem_cons_of_mem _ hkv)) hl

/-- Every probability `getAIProbability` can return from a good cache is
0.2, 0.5 or 0.8. -/
theorem getAIProbability_prob_cases (cache : Cache) (text : String) (o : ClassifyOutcome)
    (hg : goodCache cache) :
    (getAIProbability cache text o).prob = (2 : ℚ)/10 ∨
    (getAIProbability cache text o).prob = (1 : ℚ)/2 ∨
    (getAIProbability cache text o).prob = (8 : ℚ)/10 := by
  rw [getAIProbability]
  by_cases hlen : text.length < 50
  · simp [hlen]
  · rw [if_neg hlen]
    cases hc : cacheLookup cache (hashString text) with
    | some p => rcases cacheLookup_good hg hc with h | h <;> simp [hc, h]
    | none =>
      cases o with
      | success label =>
        by_cases hla : label = 0 <;> simp [hc, hla]
      | failure => simp [hc]

/-- All segments produced by `analyzeTranscript` from a good cache carry
one of the three discrete probabilities. -/
theorem analyzeTranscript_prob_cases (cache : Cache) (t : Transcript)
    (o : ClassifyOutcome) (hg : goodCache cache) :
    ∀ s ∈ (analyzeTranscript cache t o).segments,
      s.ai_probability = (2 : ℚ)/10 ∨ s.ai_probability = (1 : ℚ)/2 ∨
      s.ai_probability = (8 : ℚ)/10 := by
  intro s hs
  rw [analyzeTranscript] at hs
  by_cases hu : (transcriptUnits t).length = 0
  · simp [hu] at hs
  · simp only [hu, if_false, List.mem_map] at hs
    obtain ⟨w, hw, rfl⟩ := hs
    exact getAIProbability_prob_cases cache _ o hg

/-- Bounds on the aggregator's running sum. -/
theorem foldl_add_bounds (l : List TranscriptSegment)
    (h : ∀ s ∈ l, 0 ≤ s.ai_probability ∧ s.ai_probability ≤ 1) :
    ∀ init : ℚ,
      init ≤ l.foldl (fun acc s => acc + s.ai_probability) init ∧
      l.foldl (fun acc s => acc + s.ai_probability) init ≤ init + l.length := by
  induction l with
  | nil => intro init; simp
  | cons s rest ih =>
    intro init
    have hs := h s (List.mem_cons_self _ _)
    have hih := ih (fun x hx => h x (List.mem_cons_of_mem _ hx)) (init + s.ai_probability)
    simp only [List.foldl_cons, List.length_cons]
    constructor
    · linarith [hih.1, hs.1]
    · have h2 := hih.2
      push_cast
      push_cast at h2
      linarith [hs.2]

/-- The aggregator's mean lies in the unit interval whenever every
segment probability does. -/
theorem overall_mean_in_unit (segs : List TranscriptSegment)
    (h : ∀ s ∈ segs, 0 ≤ s.ai_probability ∧ s.ai_probability ≤ 1) :
    0 ≤ (calculateOverallAnalysis segs).overall_ai_probability ∧
    (calculateOverallAnalysis segs).overall_ai_probability ≤ 1 := by
  have hsum := foldl_add_bounds segs h 0
  simp only [calculateOverallAnalysis]
  by_cases hlen : segs.length = 0
  · have : segs = [] := List.length_eq_zero.mp hlen
    subst this
    simp
  · simp only [hlen, if_false]
    have hpos : (0 : ℚ) < (segs.length : ℚ) := by
      have := Nat.pos_of_ne_zero hlen
      exact_mod_cast this
    constructor
    · exact div_nonneg (by linarith [hsum.1]) (le_of_lt hpos)
    · rw [div_le_one hpos]
      linarith [hsum.2]

/-- C10: from a good cache (in particular the initial empty one), every
classification result is exactly 0.2, 0.5 or 0.8; hence in any run every
segment's probability is one of those three values and any produced
summary's overall mean lies in [0,1]. -/
theorem discrete_probability_values (cache : Cache) (hg : goodCache cache) :
    (∀ text o, (getAIProbability cache text o).prob = (2 : ℚ)/10 ∨
        (getAIProbability cache text o).prob = (1 : ℚ)/2 ∨
        (getAIProbability cache text o).prob = (8 : ℚ)/10) ∧
    (∀ env id url, ∀ s ∈ (processVideo env cache (initialJob id url)).final.transcript,
        s.ai_probability = (2 : ℚ)/10 ∨ s.ai_probability = (1 : ℚ)/2 ∨
        s.ai_probability = (8 : ℚ)/10) ∧
    (∀ env id url oa,
        (processVideo env cache (initialJob id url)).final.overallAnalysis = some oa →
        0 ≤ oa.overall_ai_probability ∧ oa.overall_ai_probability ≤ 1) := by
  refine ⟨fun text o => getAIProbability_prob_cases cache text o hg, ?_, ?_⟩
  · intro env id url s hs
    obtain ⟨shot, audio, trans, classify⟩ := env
    cases audio with
    | fail m => simp [processVideo, extractAudio, initialJob] at hs
    | ok =>
      cases trans with
      | fail m => simp [processVideo, extractAudio, transcribeAudio, initialJob] at hs
      | ok t =>
        simp only [processVideo, extractAudio, transcribeAudio] at hs
        exact analyzeTranscript_prob_cases cache t classify hg s hs
  · intro env id url oa hoa
    obtain ⟨shot, audio, trans, classify⟩ := env
    cases audio with
    | fail m => simp [processVideo, extractAudio, initialJob] at hoa
    | ok =>
      cases trans with
      | fail m => simp [processVideo, extractAudio, transcribeAudio, initialJob] at hoa
      | ok t =>
        simp only [processVideo, extractAudio, transcribeAudio, Option.some.injEq] at hoa
        subst hoa
        refine overall_mean_in_unit _ (fun s hs => ?_)
        rcases analyzeTranscript_prob_cases cache t classify hg s hs with h | h | h <;>
          rw [h] <;> norm_num

/-- C10 witness. -/
theorem discrete_probability_values_witness :
    (∀ text o, (getAIProbability [] text o).prob = (2 : ℚ)/10 ∨
        (getAIProbability [] text o).prob = (1 : ℚ)/2 ∨
        (getAIProbability [] text o).prob = (8 : ℚ)/10) ∧
    (∀ env id url, ∀ s ∈ (processVideo env [] (initialJob id url)).final.transcript,
        s.ai_probability = (2 : ℚ)/10 ∨ s.ai_probability = (1 : ℚ)/2 ∨
        s.ai_probability = (8 : ℚ)/10) ∧
    (∀ env id url oa,
        (processVideo env [] (initialJob id url)).final.overallAnalysis = some oa →
        0 ≤ oa.overall_ai_probability ∧ oa.overall_ai_probability ≤ 1) :=
  discrete_probability_values [] (by simp [goodCache])

end YTAnalysis
